import Mathlib

/-!
Verification of the invariant-checking subsystem in src/util/check.cpp.

The file embeds the two operations of that translation unit:

* the constructor of `NonFatalCheckError` (check.cpp lines 18-22), which
  builds the runtime_error message
  strprintf("Internal bug detected: \"%s\"\n%s:%d (%s)\nPlease report this issue here: %s\n",
            msg, file, line, func, PACKAGE_BUGREPORT);

* `assertion_fail` (check.cpp lines 24-29), which computes
  strprintf("%s:%s %s: Assertion \x60%s\x27 failed.\n", file, line, func, assertion),
  writes the resulting bytes to stderr with fwrite (ignoring the fwrite
  result) and then calls std::abort().

The formatter strprintf is tinyformat (tinyformat.h, not part of the given
sources) and PACKAGE_BUGREPORT is a build-time configuration constant (also
not part of the given sources); both are modelled from the spec, the former
as a small type-safe directive interpreter, the latter as an explicit
parameter threaded through every definition.
-/

/-- Argument of a strprintf call: tinyformat is variadic and type safe; the
two call sites in check.cpp pass only strings and one int. -/
inductive FmtArg where
  | str : String → FmtArg
  | int : Int → FmtArg

/-- Modelled from the spec: tinyformat (tinyformat.h, not under src/) renders
each argument with the stream insertion operator, so a string argument is
inserted verbatim and an integer argument as its decimal representation,
under a %s directive just as under a %d directive. -/
def renderArg : FmtArg → String
  | FmtArg.str s => s
  | FmtArg.int i => toString i

/-- Modelled from the spec: the core of tinyformat::format (tinyformat.h, not
under src/). It scans the format string left to right; %% emits a literal
percent sign, %s and %d each consume the next argument and emit its rendering,
every other character is copied. A directive without a matching argument, a
leftover argument, a trailing percent sign or an unsupported conversion make
tinyformat throw, which the model signals as `none`. -/
def runFormat : List Char → List FmtArg → Option (List Char)
  | [], [] => some []
  | [], _ :: _ => none
  | c :: rest, args =>
    if c = '%' then
      match rest, args with
      | [], _ => none
      | d :: rest2, args =>
        if d = '%' then Option.map (fun t => '%' :: t) (runFormat rest2 args)
        else if d = 's' then
          match args with
          | [] => none
          | a :: args2 => Option.map (fun t => (renderArg a).data ++ t) (runFormat rest2 args2)
        else if d = 'd' then
          match args with
          | [] => none
          | a :: args2 => Option.map (fun t => (renderArg a).data ++ t) (runFormat rest2 args2)
        else none
    else Option.map (fun t => c :: t) (runFormat rest args)

/-- Modelled from the spec: strprintf, the wrapper around tinyformat::format
used by check.cpp (not under src/). -/
def strprintf (fmt : String) (args : List FmtArg) : Option String :=
  Option.map String.mk (runFormat fmt.data args)

/-- Format string literal of the NonFatalCheckError constructor,
check.cpp line 20, verbatim. -/
def nonfatalFormat : String :=
  "Internal bug detected: \"%s\"\n%s:%d (%s)\nPlease report this issue here: %s\n"

/-- Format string literal of assertion_fail, check.cpp line 26, verbatim:
the assertion text is enclosed in a grave accent and a straight single
quote, and the second directive (receiving the int line) is %s, not %d. -/
def fatalFormat : String :=
  "%s:%s %s: Assertion `%s\x27 failed.\n"

/-- Embeds the class NonFatalCheckError (check.cpp lines 18-22): it derives
from std::runtime_error and adds no members, so its only state is the
runtime_error message string, held here in the field `what`. -/
structure NonFatalCheckError where
  what : String

/-- Embeds the constructor NonFatalCheckError::NonFatalCheckError
(check.cpp lines 18-22): the runtime_error message is
strprintf(nonfatalFormat, msg, file, line, func, PACKAGE_BUGREPORT).
PACKAGE_BUGREPORT is a build-time constant (bitcoin-config.h, not under
src/), modelled from the spec as the explicit parameter `bugreport`.
`none` models tinyformat throwing out of the constructor. -/
def NonFatalCheckError_mk (bugreport msg file : String) (line : Int) (func : String) :
    Option NonFatalCheckError :=
  Option.map (fun s => NonFatalCheckError.mk s)
    (strprintf nonfatalFormat
      [FmtArg.str msg, FmtArg.str file, FmtArg.int line, FmtArg.str func, FmtArg.str bugreport])

/-- Rendered text of the constructed error (the what() string of the
runtime_error base), as a total function; the empty-string default is never
taken, as proved below. -/
def renderedText (bugreport msg file : String) (line : Int) (func : String) : String :=
  (Option.map NonFatalCheckError.what (NonFatalCheckError_mk bugreport msg file line func)).getD ("")

/-- Observable I/O action of the subsystem: a call of fwrite on stderr,
recording the full string handed to fwrite and the number of bytes the
environment reports as written (the fwrite return value). -/
inductive Event where
  | write : String → Nat → Event

/-- Final state of the process after a call on the fatal path. -/
inductive Outcome where
  | aborted : Outcome
  | exitedNormally : Int → Outcome
  | threw : Outcome

/-- Run of the fatal path: the ordered stderr writes it performs and how the
process ends. -/
structure FatalRun where
  events : List Event
  outcome : Outcome

/-- Diagnostic string computed by assertion_fail (check.cpp line 26):
strprintf(fatalFormat, file, line, func, assertion). -/
def fatalDiagnostic (file : String) (line : Int) (func assertion : String) : Option String :=
  strprintf fatalFormat
    [FmtArg.str file, FmtArg.int line, FmtArg.str func, FmtArg.str assertion]

/-- Embeds assertion_fail (check.cpp lines 24-29): it computes the
diagnostic, hands the whole string to fwrite(str.data(), 1, str.size(),
stderr), discards the fwrite result, and calls std::abort(). The parameter
`written` is the byte count the environment reports for the fwrite call;
the code never inspects it. Were strprintf to throw (it never does here),
the exception would propagate and neither write nor abort would happen,
which the `none` branch records. -/
def assertion_fail (written : Nat) (file : String) (line : Int) (func assertion : String) :
    FatalRun :=
  match fatalDiagnostic file line func assertion with
  | some str => FatalRun.mk [Event.write str written] Outcome.aborted
  | none => FatalRun.mk [] Outcome.threw

/-- Recoverable path, operation makeViolation of the spec: constructing the
error value. The constructor body (check.cpp lines 18-22) contains no stream
operation, so the I/O event trace of the construction is empty. -/
def makeViolation (bugreport msg file : String) (line : Int) (func : String) :
    Option NonFatalCheckError × List Event :=
  (NonFatalCheckError_mk bugreport msg file line func, [])

/-- Number of occurrences of `pat` as a contiguous substring, counted at
every start position. -/
def countOccs (pat : List Char) : List Char → Nat
  | [] => if pat.isPrefixOf ([]) then 1 else 0
  | c :: rest => (if pat.isPrefixOf (c :: rest) then 1 else 0) + countOccs pat rest

/-- Containment of `pat` as a contiguous substring of `s`. -/
def occursIn (pat s : String) : Prop :=
  ∃ a b : String, s = a ++ pat ++ b

/-- Associativity of string concatenation, used to normalise rendered texts. -/
theorem strAppend_assoc (a b c : String) : (a ++ b) ++ c = a ++ (b ++ c) :=
  congrArg String.mk (List.append_assoc a.data b.data c.data)

/-- Expansion of the nonfatal format: strprintf succeeds on it for every
argument quintuple and yields the fixed recoverable-path shape. -/
theorem strprintf_nonfatal (msg file : String) (line : Int) (func url : String) :
    strprintf nonfatalFormat
      [FmtArg.str msg, FmtArg.str file, FmtArg.int line, FmtArg.str func, FmtArg.str url] =
    some ("Internal bug detected: \"" ++ msg ++ "\"\n" ++ file ++ ":" ++ toString line ++
      " (" ++ func ++ ")\nPlease report this issue here: " ++ url ++ "\n") := by
  simp only [strAppend_assoc]
  rfl

/-- Expansion of the fatal format: strprintf succeeds on it for every
argument quadruple and yields the fixed fatal-path shape. -/
theorem strprintf_fatal (file : String) (line : Int) (func assertion : String) :
    strprintf fatalFormat
      [FmtArg.str file, FmtArg.int line, FmtArg.str func, FmtArg.str assertion] =
    some (file ++ ":" ++ toString line ++ " " ++ func ++ ": Assertion `" ++ assertion ++
      "\x27 failed.\n") := by
  simp only [strAppend_assoc]
  rfl

/-- Closed form of the constructed error value. -/
theorem mk_nonfatal (bugreport msg file : String) (line : Int) (func : String) :
    NonFatalCheckError_mk bugreport msg file line func =
    some (NonFatalCheckError.mk ("Internal bug detected: \"" ++ msg ++ "\"\n" ++ file ++ ":" ++
      toString line ++ " (" ++ func ++ ")\nPlease report this issue here: " ++ bugreport ++
      "\n")) := by
  unfold NonFatalCheckError_mk
  rw [strprintf_nonfatal]
  rfl

/-- Closed form of the rendered text of the constructed error value. -/
theorem renderedText_eq (bugreport msg file : String) (line : Int) (func : String) :
    renderedText bugreport msg file line func =
    "Internal bug detected: \"" ++ msg ++ "\"\n" ++ file ++ ":" ++ toString line ++
      " (" ++ func ++ ")\nPlease report this issue here: " ++ bugreport ++ "\n" := by
  unfold renderedText
  rw [mk_nonfatal]
  rfl

/-- Closed form of the fatal diagnostic string. -/
theorem fatalDiagnostic_eq (file : String) (line : Int) (func assertion : String) :
    fatalDiagnostic file line func assertion =
    some (file ++ ":" ++ toString line ++ " " ++ func ++ ": Assertion `" ++ assertion ++
      "\x27 failed.\n") :=
  strprintf_fatal file line func assertion

/-- Closed form of a fatal-path run: one fwrite of the whole diagnostic,
then abort, for every reported write result. -/
theorem assertion_fail_eq (written : Nat) (file : String) (line : Int) (func assertion : String) :
    assertion_fail written file line func assertion =
    FatalRun.mk
      [Event.write (file ++ ":" ++ toString line ++ " " ++ func ++ ": Assertion `" ++
        assertion ++ "\x27 failed.\n") written]
      Outcome.aborted := by
  unfold assertion_fail
  rw [fatalDiagnostic_eq]

/-- Claim C1 counterexample: the fatal diagnostic at the concrete scenario
of the claim differs from the claimed string, because the code encloses the
assertion text in a grave accent and a straight single quote, not in two
straight single quotes. -/
theorem claim_C1_counterexample :
    fatalDiagnostic ("pool.cc") 77 ("Pool::release") ("refcount > 0") ≠
    some ("pool.cc:77 Pool::release: Assertion \x27refcount > 0\x27 failed.\n") := by
  decide

/-- Claim C1 (amended): for every call of the fatal path, the diagnostic
text written to standard error has exactly the shape
`<file>:<line> <func>: Assertion \x60<assertionText>\x27 failed.\n`, the
assertion text enclosed in a grave accent on the left and a straight single
quote on the right; in particular the call on ("pool.cc", 77,
"Pool::release", "refcount > 0") writes exactly
`pool.cc:77 Pool::release: Assertion \x60refcount > 0\x27 failed.\n`. -/
theorem claim_C1 :
    (∀ (written : Nat) (file : String) (line : Int) (func assertion : String),
      (assertion_fail written file line func assertion).events =
        [Event.write (file ++ ":" ++ toString line ++ " " ++ func ++ ": Assertion `" ++
          assertion ++ "\x27 failed.\n") written]) ∧
    (∀ written : Nat,
      (assertion_fail written ("pool.cc") 77 ("Pool::release") ("refcount > 0")).events =
        [Event.write ("pool.cc:77 Pool::release: Assertion `refcount > 0\x27 failed.\n")
          written]) := by
  constructor
  · intro written file line func assertion
    rw [assertion_fail_eq]
  · intro written
    rw [assertion_fail_eq]
    rfl

/-- Claim C2: the recoverable-path rendered text is exactly
`Internal bug detected: "<message>"\n<file>:<line> (<func>)\nPlease report this issue here: <bug-report-url>\n`
with the build-time bug-report constant at the end; in particular the
constructed value at ("pool size negative", "pool.cc", 42, "Pool::take")
renders as
`Internal bug detected: "pool size negative"\npool.cc:42 (Pool::take)\nPlease report this issue here: <configured-url>\n`. -/
theorem claim_C2 :
    (∀ (url msg file : String) (line : Int) (func : String),
      NonFatalCheckError_mk url msg file line func =
        some (NonFatalCheckError.mk ("Internal bug detected: \"" ++ msg ++ "\"\n" ++ file ++
          ":" ++ toString line ++ " (" ++ func ++ ")\nPlease report this issue here: " ++
          url ++ "\n"))) ∧
    (∀ url : String,
      NonFatalCheckError_mk url ("pool size negative") ("pool.cc") 42 ("Pool::take") =
        some (NonFatalCheckError.mk
          ("Internal bug detected: \"pool size negative\"\npool.cc:42 (Pool::take)\nPlease report this issue here: "
            ++ url ++ "\n"))) := by
  constructor
  · intro url msg file line func
    exact mk_nonfatal url msg file line func
  · intro url
    rw [mk_nonfatal]
    rfl

/-- Claim C3 counterexample: at message "e", file "f", line 0, func "g" and
bug-report constant "U" (a quadruple with line ≥ 0), the message "e" does
not occur exactly once in the rendered text, since the fixed template words
of the shape also contain the letter e. -/
theorem claim_C3_counterexample :
    ((0 : Int) ≥ 0) ∧
    countOccs ("e").data (renderedText ("U") ("e") ("f") 0 ("g")).data ≠ 1 := by
  decide

/-- Claim C3 (amended): for all (message, file, line, func) with line ≥ 0,
the rendered text of the recoverable path contains message, file, the
decimal representation of line, func, and the configured bug-report
constant, with occurrences in that order; the exactly-once part of the
original claim is dropped, since a field may also occur inside the fixed
template text or inside another field. -/
theorem claim_C3 (url msg file : String) (line : Int) (func : String) (h : line ≥ 0) :
    ∃ p1 p2 p3 p4 p5 p6 : String,
      renderedText url msg file line func =
        p1 ++ msg ++ p2 ++ file ++ p3 ++ toString line ++ p4 ++ func ++ p5 ++ url ++ p6 := by
  refine ⟨("Internal bug detected: \""), ("\"\n"), (":"), (" ("),
    (")\nPlease report this issue here: "), ("\n"), ?_⟩
  rw [renderedText_eq]

/-- Claim C3 witness at a concrete quadruple with line ≥ 0. -/
theorem claim_C3_witness :
    ∃ p1 p2 p3 p4 p5 p6 : String,
      renderedText ("U") ("m") ("f") 3 ("g") =
        p1 ++ "m" ++ p2 ++ "f" ++ p3 ++ toString (3 : Int) ++ p4 ++ "g" ++ p5 ++ "U" ++ p6 :=
  claim_C3 ("U") ("m") ("f") 3 ("g") (by decide)

/-- Claim C4: for every input, including empty strings and line 0, and for
every reported fwrite result, the fatal path ends in the abort outcome, an
outcome distinct from every normal exit, in particular from a status-0
exit; the run never returns control to the caller. -/
theorem claim_C4 (written : Nat) (file : String) (line : Int) (func assertion : String) :
    (assertion_fail written file line func assertion).outcome = Outcome.aborted ∧
    (∀ code : Int, Outcome.aborted ≠ Outcome.exitedNormally code) := by
  constructor
  · rw [assertion_fail_eq]
  · intro code h
    exact Outcome.noConfusion h

/-- Claim C5: the fatal path hands the complete formatted diagnostic to a
single stderr write before the abort, and the abort outcome is reached for
every reported write result, so a failed or partial write does not prevent
termination. -/
theorem claim_C5 (written : Nat) (file : String) (line : Int) (func assertion : String) :
    ∃ diag : String,
      fatalDiagnostic file line func assertion = some diag ∧
      diag = file ++ ":" ++ toString line ++ " " ++ func ++ ": Assertion `" ++ assertion ++
        "\x27 failed.\n" ∧
      assertion_fail written file line func assertion =
        FatalRun.mk [Event.write diag written] Outcome.aborted := by
  refine ⟨_, fatalDiagnostic_eq file line func assertion, rfl, ?_⟩
  rw [assertion_fail_eq]

/-- Claim C6: the recoverable path is deterministic; two constructions with
identical arguments yield equal rendered texts, the text being a function of
the four arguments and the build-time bug-report constant alone, with no
timestamp or other nondeterministic content. -/
theorem claim_C6 (url msg file : String) (line : Int) (func : String)
    (msg2 file2 : String) (line2 : Int) (func2 : String)
    (h1 : msg = msg2) (h2 : file = file2) (h3 : line = line2) (h4 : func = func2) :
    renderedText url msg file line func = renderedText url msg2 file2 line2 func2 := by
  subst h1
  subst h2
  subst h3
  subst h4
  rfl

/-- Claim C6 witness at concrete identical argument pairs. -/
theorem claim_C6_witness :
    renderedText ("U") ("m") ("f") 5 ("g") = renderedText ("U") ("m") ("f") 5 ("g") :=
  claim_C6 ("U") ("m") ("f") 5 ("g") ("m") ("f") 5 ("g") rfl rfl rfl rfl

/-- Claim C7: for every input the construction of the recoverable violation
succeeds, performs no stream write (its event trace is empty), and returns a
value whose rendered text is already the fully computed fixed shape. -/
theorem claim_C7 (url msg file : String) (line : Int) (func : String) :
    (makeViolation url msg file line func).2 = ([] : List Event) ∧
    (∃ e : NonFatalCheckError,
      (makeViolation url msg file line func).1 = some e ∧
      e.what = "Internal bug detected: \"" ++ msg ++ "\"\n" ++ file ++ ":" ++ toString line ++
        " (" ++ func ++ ")\nPlease report this issue here: " ++ url ++ "\n") := by
  refine ⟨rfl, ⟨NonFatalCheckError.mk _, ?_, rfl⟩⟩
  exact mk_nonfatal url msg file line func

/-- Claim C8: both formatting operations are total on arbitrary text,
including empty strings and strings with embedded newlines: each strprintf
call succeeds and its result is exactly the corresponding full line shape,
with the complete message and assertion text embedded unshortened. -/
theorem claim_C8 (msg file : String) (line : Int) (func url : String)
    (file2 : String) (line2 : Int) (func2 assertion : String) :
    (∃ s : String,
      strprintf nonfatalFormat
        [FmtArg.str msg, FmtArg.str file, FmtArg.int line, FmtArg.str func, FmtArg.str url] =
        some s ∧
      s = "Internal bug detected: \"" ++ msg ++ "\"\n" ++ file ++ ":" ++ toString line ++
        " (" ++ func ++ ")\nPlease report this issue here: " ++ url ++ "\n") ∧
    (∃ t : String,
      strprintf fatalFormat
        [FmtArg.str file2, FmtArg.int line2, FmtArg.str func2, FmtArg.str assertion] =
        some t ∧
      t = file2 ++ ":" ++ toString line2 ++ " " ++ func2 ++ ": Assertion `" ++ assertion ++
        "\x27 failed.\n") :=
  ⟨⟨_, strprintf_nonfatal msg file line func url, rfl⟩,
   ⟨_, strprintf_fatal file2 line2 func2 assertion, rfl⟩⟩

/-- Claim C9 counterexample: two different attribute quadruples construct
the very same value, so a RecoverableViolation value does not carry the
attributes message, sourceFile, sourceLine, sourceFunction; the class adds
no members to std::runtime_error, and the quadruple is not even recoverable
from the rendered text. -/
theorem claim_C9_counterexample :
    NonFatalCheckError_mk ("U") ("m\"\nx:1 (y") ("f") 2 ("g") =
      NonFatalCheckError_mk ("U") ("m") ("x") 1 ("y\"\nf:2 (g") ∧
    (("m\"\nx:1 (y" : String), ("f" : String), (2 : Int), ("g" : String)) ≠
      (("m" : String), ("x" : String), (1 : Int), ("y\"\nf:2 (g" : String)) := by
  exact ⟨rfl, by decide⟩

/-- Claim C9 (amended): a RecoverableViolation value consists of its
rendered text alone, computed once at construction and immutable afterwards;
that text always contains all four construction inputs (the line in decimal
form) plus the constant bug-report reference string, but the four inputs are
not carried as separate attributes of the value. -/
theorem claim_C9 (url msg file : String) (line : Int) (func : String) :
    ∃ e : NonFatalCheckError,
      NonFatalCheckError_mk url msg file line func = some e ∧
      occursIn msg e.what ∧ occursIn file e.what ∧ occursIn (toString line) e.what ∧
      occursIn func e.what ∧ occursIn url e.what := by
  refine ⟨_, mk_nonfatal url msg file line func, ?_, ?_, ?_, ?_, ?_⟩
  · exact ⟨("Internal bug detected: \""),
      ("\"\n" ++ file ++ ":" ++ toString line ++ " (" ++ func ++
        ")\nPlease report this issue here: " ++ url ++ "\n"),
      by simp only [strAppend_assoc]⟩
  · exact ⟨("Internal bug detected: \"" ++ msg ++ "\"\n"),
      (":" ++ toString line ++ " (" ++ func ++ ")\nPlease report this issue here: " ++
        url ++ "\n"),
      by simp only [strAppend_assoc]⟩
  · exact ⟨("Internal bug detected: \"" ++ msg ++ "\"\n" ++ file ++ ":"),
      (" (" ++ func ++ ")\nPlease report this issue here: " ++ url ++ "\n"),
      by simp only [strAppend_assoc]⟩
  · exact ⟨("Internal bug detected: \"" ++ msg ++ "\"\n" ++ file ++ ":" ++ toString line ++
      " ("),
      (")\nPlease report this issue here: " ++ url ++ "\n"),
      by simp only [strAppend_assoc]⟩
  · exact ⟨("Internal bug detected: \"" ++ msg ++ "\"\n" ++ file ++ ":" ++ toString line ++
      " (" ++ func ++ ")\nPlease report this issue here: "),
      ("\n"),
      by simp only [strAppend_assoc]⟩

/-- Claim C10: although the fatal format string uses a %s directive for the
integer line argument, the type-safe formatter renders the integer as its
decimal representation for every call, so formatting never fails and the
fatal diagnostic always carries decimal(line) between the colon after the
file name and the space before the function name. -/
theorem claim_C10 (file : String) (line : Int) (func assertion : String) :
    ∃ s : String,
      fatalDiagnostic file line func assertion = some s ∧
      s = file ++ ":" ++ toString line ++ " " ++ func ++ ": Assertion `" ++ assertion ++
        "\x27 failed.\n" :=
  ⟨_, fatalDiagnostic_eq file line func assertion, rfl⟩
